import Mathlib

/-!
Verification of the `Wallet` lifecycle core of electra-js
(`src/wallet/index.ts`), shallowly embedded into Lean.

The embedding is pure: the mutable `Wallet` instance becomes an explicit
state record, every method that can `throw` returns `Except WErr _`, and
the external collaborators (key derivation, cipher service, remote RPC
node, balance web service) are passed in as a record of functions that may
themselves fail. Field and method names follow the TypeScript source.
-/

namespace ElectraJs

/-- `WalletState` enum from `src/wallet/types.ts`: `EMPTY` or `READY`. -/
inductive WalletState where
  | EMPTY
  | READY
deriving DecidableEq, Repr

/-- `Address` from `src/types.ts`: hash, cipher flag, HD flag, private key. -/
structure Address where
  hash : String
  isCiphered : Bool
  isHD : Bool
  privateKey : String
deriving DecidableEq, Repr

/-- `WalletAddress = Address & { label: string | null }`. -/
structure WalletAddress extends Address where
  label : Option String
deriving DecidableEq, Repr

/-- Transaction records are opaque to this core; modelled as an opaque payload. -/
structure WalletTransaction where
  payload : String
deriving DecidableEq, Repr

/-- The `WalletData` export snapshot. -/
structure WalletData where
  chainsCount : Nat
  masterNodeAddress : Option WalletAddress
  randomAddresses : List WalletAddress
deriving DecidableEq, Repr

/-- Basic-auth credentials for the RPC server. -/
structure RpcAuth where
  username : String
  password : String
deriving DecidableEq, Repr

/-- The bound RPC client (`libs/rpc`): a URI plus credentials. -/
structure Rpc where
  uri : String
  auth : RpcAuth
deriving DecidableEq, Repr

/-- Constructor `Settings` (both fields optional in the source). -/
structure Settings where
  rpcServerAuth : Option RpcAuth
  rpcServerUri : Option String
deriving DecidableEq, Repr

/-- Error taxonomy: one constructor per distinct `throw` site of the wallet
core, plus `collab` for an error propagated from a collaborator call. -/
inductive WErr where
  | accessorNotReady
  | generateAlreadyReady
  | invalidMnemonic
  | lockNotReady
  | unlockNotReady
  | exportNotReady
  | exportUnlockedNotForced
  | exportLockedForced
  | importDuplicateMasterNode
  | importCipheredWithoutPassphrase
  | importInnerDuplicateMasterNode
  | resetAlreadyEmpty
  | getBalanceEmptyWallet
  | getBalanceUnknownAddress
  | collab (msg : String)
deriving DecidableEq, Repr

instance {ε α : Type} [DecidableEq ε] [DecidableEq α] : DecidableEq (Except ε α) := fun a b =>
  match a, b with
  | .error x, .error y => decidable_of_iff (x = y) (by simp)
  | .error _, .ok _ => isFalse (by intro h; cases h)
  | .ok _, .error _ => isFalse (by intro h; cases h)
  | .ok x, .ok y => decidable_of_iff (x = y) (by simp)

/-- The external collaborators consumed by the core (`Electra`, `Crypto`,
`Rpc`, `webServices`), as a record of possibly-failing functions. A
collaborator failure is its own error object (modelled as its message);
the wallet core propagates it wrapped as `WErr.collab`, which keeps the
collaborators' errors disjoint from the wallet's own throw sites. -/
structure Collab where
  validateMnemonic : String → Bool
  getRandomMnemonic : Except String String
  getMasterNodeAddressFromMnemonic : String → Option String → Except String Address
  getDerivedChainFromMasterNodePrivateKey : String → Nat → Nat → Except String Address
  getAddressHashFromPrivateKey : String → Except String String
  cipherPrivateKey : String → String → Except String String
  decipherPrivateKey : String → String → Except String String
  getBalanceFor : String → Except String Int
  rpcLock : Except String Unit
  rpcUnlock : String → Nat → Bool → Except String Unit

/-- `const ONE_YEAR_IN_SECONDS = 60 * 60 * 24 * 365`. -/
def ONE_YEAR_IN_SECONDS : Nat := 60 * 60 * 24 * 365

/-- `const WALLET_INDEX = 0`. -/
def WALLET_INDEX : Nat := 0

/-- The private mutable fields of the `Wallet` class. -/
structure Wallet where
  ADDRESSES : List WalletAddress
  RANDOM_ADDRESSES : List WalletAddress
  IS_LOCKED : Bool
  MASTER_NODE_ADDRESS : Option WalletAddress
  MNEMONIC : Option String
  rpc : Option Rpc
  STATE : WalletState
  TRANSACTIONS : List WalletTransaction
deriving DecidableEq, Repr

/-- The `constructor(settings)`: starts from all-empty private fields, and
when both `rpcServerUri` and `rpcServerAuth` are defined it binds the RPC
client and sets `STATE = READY`. -/
def Wallet.init (settings : Settings) : Wallet :=
  match settings.rpcServerUri, settings.rpcServerAuth with
  | some uri, some auth =>
      { ADDRESSES := [], RANDOM_ADDRESSES := [], IS_LOCKED := false,
        MASTER_NODE_ADDRESS := none, MNEMONIC := none,
        rpc := some { uri := uri, auth := auth },
        STATE := WalletState.READY, TRANSACTIONS := [] }
  | _, _ =>
      { ADDRESSES := [], RANDOM_ADDRESSES := [], IS_LOCKED := false,
        MASTER_NODE_ADDRESS := none, MNEMONIC := none,
        rpc := none, STATE := WalletState.EMPTY, TRANSACTIONS := [] }

/-- The `allAddresses` getter: requires `READY`, then returns the HD
addresses followed by the random addresses. -/
def Wallet.allAddressesGet (w : Wallet) : Except WErr (List WalletAddress) :=
  if w.STATE ≠ WalletState.READY then .error WErr.accessorNotReady
  else .ok (w.ADDRESSES ++ w.RANDOM_ADDRESSES)

/-- Sequential fail-fast map over `Except`, embedding the source's
sequential per-element loops (`Array#map` bodies that may throw, and the
address-derivation `while` loop). -/
def mapExcept {α β : Type} (F : α → Except WErr β) : List α → Except WErr (List β)
  | [] => .ok []
  | a :: rest =>
      match F a with
      | .error e => .error e
      | .ok b =>
          match mapExcept F rest with
          | .error e => .error e
          | .ok bs => .ok (b :: bs)

/-- One step of `Wallet.lock`'s per-address body: cipher the private key in
place when `isCiphered` is false; note the source never sets `isCiphered`
to true here. -/
def cipherStep (c : Collab) (passphrase : String) (a : WalletAddress) :
    Except WErr WalletAddress :=
  if !a.isCiphered then
    match c.cipherPrivateKey a.privateKey passphrase with
    | .error e => .error (WErr.collab e)
    | .ok k => .ok { a with privateKey := k }
  else .ok a

/-- One step of `Wallet.unlock`'s per-address body: decipher the private
key when `isCiphered` is true; the source never clears `isCiphered` here. -/
def decipherStep (c : Collab) (passphrase : String) (a : WalletAddress) :
    Except WErr WalletAddress :=
  if a.isCiphered then
    match c.decipherPrivateKey a.privateKey passphrase with
    | .error e => .error (WErr.collab e)
    | .ok k => .ok { a with privateKey := k }
  else .ok a

/-- `Wallet.lock(passphrase)`: requires `READY`; the RPC path delegates to
the remote `walletlock`; the local path ciphers the master node address,
the HD addresses and the random addresses (skipping those already flagged
ciphered), purges the mnemonic and sets `IS_LOCKED = true`. -/
def Wallet.lock (c : Collab) (w : Wallet) (passphrase : String) : Except WErr Wallet :=
  if w.STATE ≠ WalletState.READY then .error WErr.lockNotReady
  else
    match w.rpc with
    | some _ =>
        match c.rpcLock with
        | .error e => .error (WErr.collab e)
        | .ok _ => .ok { w with IS_LOCKED := true }
    | none =>
        match ((match w.MASTER_NODE_ADDRESS with
                | some a =>
                    match cipherStep c passphrase a with
                    | .error e => .error e
                    | .ok a2 => .ok (some a2)
                | none => .ok none) : Except WErr (Option WalletAddress)) with
        | .error e => .error e
        | .ok mna =>
            match mapExcept (cipherStep c passphrase) w.ADDRESSES with
            | .error e => .error e
            | .ok addrs =>
                match mapExcept (cipherStep c passphrase) w.RANDOM_ADDRESSES with
                | .error e => .error e
                | .ok rands =>
                    .ok { w with
                          MASTER_NODE_ADDRESS := mna
                          ADDRESSES := addrs
                          RANDOM_ADDRESSES := rands
                          MNEMONIC := none
                          IS_LOCKED := true }

/-- `Wallet.unlock(passphrase, forStakingOnly = true)`: requires `READY`;
the RPC path delegates with the one-year timeout; the local path deciphers
every address flagged ciphered and sets `IS_LOCKED = false`. -/
def Wallet.unlock (c : Collab) (w : Wallet) (passphrase : String)
    (forStakingOnly : Bool) : Except WErr Wallet :=
  if w.STATE ≠ WalletState.READY then .error WErr.unlockNotReady
  else
    match w.rpc with
    | some _ =>
        match c.rpcUnlock passphrase ONE_YEAR_IN_SECONDS forStakingOnly with
        | .error e => .error (WErr.collab e)
        | .ok _ => .ok { w with IS_LOCKED := false }
    | none =>
        match ((match w.MASTER_NODE_ADDRESS with
                | some a =>
                    match decipherStep c passphrase a with
                    | .error e => .error e
                    | .ok a2 => .ok (some a2)
                | none => .ok none) : Except WErr (Option WalletAddress)) with
        | .error e => .error e
        | .ok mna =>
            match mapExcept (decipherStep c passphrase) w.ADDRESSES with
            | .error e => .error e
            | .ok addrs =>
                match mapExcept (decipherStep c passphrase) w.RANDOM_ADDRESSES with
                | .error e => .error e
                | .ok rands =>
                    .ok { w with
                          MASTER_NODE_ADDRESS := mna
                          ADDRESSES := addrs
                          RANDOM_ADDRESSES := rands
                          IS_LOCKED := false }

/-- `Wallet.export(unsafe = false)`: requires `READY`; fails when
unlocked and not explicitly forced (would leak plaintext) and when locked
yet forced; otherwise returns `{ chainsCount, masterNodeAddress | null,
randomAddresses }`. The source parameter is named `unsafe`; it is a
reserved word in Lean and is rendered `unsafeMode` here. -/
def Wallet.exportData (w : Wallet) (unsafeMode : Bool) : Except WErr WalletData :=
  if w.STATE ≠ WalletState.READY then .error WErr.exportNotReady
  else if !w.IS_LOCKED && !unsafeMode then .error WErr.exportUnlockedNotForced
  else if w.IS_LOCKED && unsafeMode then .error WErr.exportLockedForced
  else
    .ok { chainsCount := w.ADDRESSES.length
          masterNodeAddress := w.MASTER_NODE_ADDRESS
          randomAddresses := w.RANDOM_ADDRESSES }

/-- `Wallet.importRandomAddress(address, passphrase?, isHDMasterNode = false)`:
entry guard on a duplicate master node, optional decipher of a ciphered
key (requiring a passphrase), hash recomputation from the private key,
then either storage as the master node (with the inner duplicate guard of
the source, kept verbatim) or a push onto the random addresses. The
source never changes `STATE` here. -/
def Wallet.importRandomAddress (c : Collab) (w : Wallet) (address : WalletAddress)
    (passphrase : Option String) (isHDMasterNode : Bool) : Except WErr Wallet :=
  if isHDMasterNode && w.MASTER_NODE_ADDRESS.isSome then
    .error WErr.importDuplicateMasterNode
  else
    match ((if address.isCiphered then
              match passphrase with
              | none => .error WErr.importCipheredWithoutPassphrase
              | some p =>
                  match c.decipherPrivateKey address.privateKey p with
                  | .error e => .error (WErr.collab e)
                  | .ok k => .ok { address with privateKey := k, isCiphered := false }
            else .ok address) : Except WErr WalletAddress) with
    | .error e => .error e
    | .ok address2 =>
        match c.getAddressHashFromPrivateKey address2.privateKey with
        | .error e => .error (WErr.collab e)
        | .ok h =>
            let address3 := { address2 with hash := h }
            if isHDMasterNode then
              if w.STATE = WalletState.READY && w.MASTER_NODE_ADDRESS.isSome then
                .error WErr.importInnerDuplicateMasterNode
              else
                .ok { w with MASTER_NODE_ADDRESS := some { address3 with isHD := true } }
            else
              .ok { w with RANDOM_ADDRESSES := w.RANDOM_ADDRESSES ++ [address3] }

/-- `Wallet.reset()`: fails on an `EMPTY` wallet; otherwise deletes the
master node address and the mnemonic, empties the HD addresses, the
random addresses and the transactions, and sets `STATE = EMPTY`. The
source does not touch `IS_LOCKED`. -/
def Wallet.reset (w : Wallet) : Except WErr Wallet :=
  if w.STATE = WalletState.EMPTY then .error WErr.resetAlreadyEmpty
  else
    .ok { w with
          MASTER_NODE_ADDRESS := none
          MNEMONIC := none
          ADDRESSES := []
          RANDOM_ADDRESSES := []
          STATE := WalletState.EMPTY
          TRANSACTIONS := [] }

/-- The `while (--index >= 0)` accumulation loop of `Wallet.getBalance()`:
processes the given list front to back (the caller passes the reversed
address list), aborting on the first failing balance query. -/
def getBalanceLoop (c : Collab) (acc : Int) : List WalletAddress → Except WErr Int
  | [] => .ok acc
  | a :: rest =>
      match c.getBalanceFor a.hash with
      | .error e => .error (WErr.collab e)
      | .ok b => getBalanceLoop c (acc + b) rest

/-- `Wallet.getBalance(addressHash?)`: fails on an `EMPTY` wallet; with a
hash, checks membership in `allAddresses` by filtering on equal hashes and
then queries the balance service once; without a hash, sums the balance of
every address, iterating from the last index down to 0. -/
def Wallet.getBalance (c : Collab) (w : Wallet) (addressHash : Option String) :
    Except WErr Int :=
  if w.STATE = WalletState.EMPTY then .error WErr.getBalanceEmptyWallet
  else
    match w.allAddressesGet with
    | .error e => .error e
    | .ok addresses =>
        match addressHash with
        | some h =>
            if (addresses.filter (fun a => a.hash == h)).length = 0 then
              .error WErr.getBalanceUnknownAddress
            else
              match c.getBalanceFor h with
              | .error e => .error (WErr.collab e)
              | .ok b => .ok b
        | none => getBalanceLoop c 0 addresses.reverse

/-- `Wallet.generate(mnemonic?, mnemonicExtension?, chainsCount = 1)`:
fails on a `READY` wallet; validates a provided mnemonic (or requests and
retains a random one), derives the master node address (stored with
`label = null`), then derives `chainsCount` chain addresses at indices
`0 .. chainsCount - 1` under `WALLET_INDEX`, appends them to the HD
address list, and sets `STATE = READY`. -/
def Wallet.generate (c : Collab) (w : Wallet) (mnemonic : Option String)
    (mnemonicExtension : Option String) (chainsCount : Nat) : Except WErr Wallet :=
  if w.STATE = WalletState.READY then .error WErr.generateAlreadyReady
  else
    match ((match mnemonic with
            | some m =>
                if c.validateMnemonic m then .ok (m, w.MNEMONIC)
                else .error WErr.invalidMnemonic
            | none =>
                match c.getRandomMnemonic with
                | .error e => .error (WErr.collab e)
                | .ok m => .ok (m, some m)) : Except WErr (String × Option String)) with
    | .error e => .error e
    | .ok (m, mnemonicStored) =>
        match c.getMasterNodeAddressFromMnemonic m mnemonicExtension with
        | .error e => .error (WErr.collab e)
        | .ok address =>
            let mna : WalletAddress := { toAddress := address, label := none }
            match mapExcept
                (fun chainIndex =>
                  (match c.getDerivedChainFromMasterNodePrivateKey
                      mna.privateKey WALLET_INDEX chainIndex with
                   | .error e => .error (WErr.collab e)
                   | .ok a => .ok ({ toAddress := a, label := none } : WalletAddress)))
                (List.range chainsCount) with
            | .error e => .error e
            | .ok derived =>
                .ok { w with
                      MNEMONIC := mnemonicStored
                      MASTER_NODE_ADDRESS := some mna
                      ADDRESSES := w.ADDRESSES ++ derived
                      STATE := WalletState.READY }

/-! ## Concrete collaborators and wallets used as test inputs -/

/-- A concrete collaborator record: ciphering prepends `"X"`, deciphering
drops one character (a genuine left inverse of the cipher), hashes prepend
`"H"`, balances are the hash length. -/
def testCollab : Collab :=
  { validateMnemonic := fun _ => true
    getRandomMnemonic := .ok "mn"
    getMasterNodeAddressFromMnemonic := fun m _ =>
      .ok { hash := "MH", isCiphered := false, isHD := true, privateKey := "MK" ++ m }
    getDerivedChainFromMasterNodePrivateKey := fun k _ i =>
      .ok { hash := "DH" ++ toString i, isCiphered := false, isHD := false,
            privateKey := k ++ toString i }
    getAddressHashFromPrivateKey := fun k => .ok ("H" ++ k)
    cipherPrivateKey := fun k _ => .ok ("X" ++ k)
    decipherPrivateKey := fun k _ => .ok (k.drop 1)
    getBalanceFor := fun h => .ok (h.length : Int)
    rpcLock := .ok ()
    rpcUnlock := fun _ _ _ => .ok () }

/-- A plaintext (not ciphered) imported address. -/
def addr1 : WalletAddress :=
  { hash := "h1", isCiphered := false, isHD := false, privateKey := "k1", label := none }

/-- A `READY` wallet holding only local key material: one plaintext random
address, no remote node bound. -/
def readyWallet : Wallet :=
  { ADDRESSES := [], RANDOM_ADDRESSES := [addr1], IS_LOCKED := false,
    MASTER_NODE_ADDRESS := none, MNEMONIC := none, rpc := none,
    STATE := WalletState.READY, TRANSACTIONS := [] }

/-- A freshly constructed wallet with no RPC binding. -/
def emptyWallet : Wallet :=
  { ADDRESSES := [], RANDOM_ADDRESSES := [], IS_LOCKED := false,
    MASTER_NODE_ADDRESS := none, MNEMONIC := none, rpc := none,
    STATE := WalletState.EMPTY, TRANSACTIONS := [] }

/-- `readyWallet` with the locked flag raised. -/
def lockedReadyWallet : Wallet :=
  { readyWallet with IS_LOCKED := true }

/-- Constructor settings binding a remote RPC node. -/
def rpcSettings : Settings :=
  { rpcServerAuth := some { username := "u", password := "p" }
    rpcServerUri := some "http://localhost:5788" }

/-! ## Claims -/

/-- C1: the claim says `lock(p)` then `unlock(p)` restores every private
key bit-for-bit, with `isCiphered` true right after `lock` and false right
after `unlock`. The code violates it: `lock` replaces `privateKey` with
the ciphered key but never sets `isCiphered`, so the subsequent `unlock`
(which only deciphers addresses flagged ciphered) deciphers nothing. At
the failing input below, the private key `"k1"` is still the ciphered
`"Xk1"` after the round trip, and `isCiphered` is still `false` right
after `lock`. -/
theorem C1_lock_unlock_not_roundtrip :
    ∃ w1 w2 : Wallet,
      Wallet.lock testCollab readyWallet "pw" = .ok w1 ∧
      Wallet.unlock testCollab w1 "pw" true = .ok w2 ∧
      w1.RANDOM_ADDRESSES.map (fun a => a.isCiphered) = [false] ∧
      w2.RANDOM_ADDRESSES.map (fun a => a.privateKey) = ["Xk1"] ∧
      ["Xk1"] ≠ readyWallet.RANDOM_ADDRESSES.map (fun a => a.privateKey) :=
  ⟨_, _, rfl, rfl, rfl, rfl, by decide⟩

/-- C2: the claim says a second `lock(p)` ciphers nothing. The code
violates it: since `lock` never raises `isCiphered`, the second `lock`
passes the `!isCiphered` test again and ciphers the already-ciphered key a
second time (`"k1"` becomes `"XXk1"`). -/
theorem C2_double_lock_reciphers :
    ∃ w1 w2 : Wallet,
      Wallet.lock testCollab readyWallet "pw" = .ok w1 ∧
      Wallet.lock testCollab w1 "pw" = .ok w2 ∧
      w1.RANDOM_ADDRESSES.map (fun a => a.privateKey) = ["Xk1"] ∧
      w2.RANDOM_ADDRESSES.map (fun a => a.privateKey) = ["XXk1"] :=
  ⟨_, _, rfl, rfl, rfl, rfl⟩

/-- C3: the claim (and the method's own doc comment) says a successful
`importRandomAddress` on an `EMPTY` wallet moves the state to `READY`.
The code never assigns `STATE` in `importRandomAddress`: importing a
plaintext address into the empty wallet succeeds yet leaves the state
`EMPTY`. -/
theorem C3_import_leaves_state_EMPTY :
    ∃ w1 : Wallet,
      Wallet.importRandomAddress testCollab emptyWallet addr1 none false = .ok w1 ∧
      w1.STATE = WalletState.EMPTY ∧ WalletState.EMPTY ≠ WalletState.READY :=
  ⟨_, rfl, rfl, by decide⟩

/-- C4 counterexample: the claim says every newly constructed wallet is
`EMPTY`, including when the settings bind a remote RPC node; but the
constructor sets `STATE = READY` as soon as both `rpcServerUri` and
`rpcServerAuth` are defined. -/
theorem C4_counterexample_rpc_bound_wallet_starts_READY :
    (Wallet.init rpcSettings).STATE ≠ WalletState.EMPTY := by decide

/-- C4 (amended): a newly constructed wallet is `EMPTY` unless the
settings carry both `rpcServerUri` and `rpcServerAuth`, in which case it
is `READY`. -/
theorem C4_init_state_amended (settings : Settings) :
    (Wallet.init settings).STATE =
      (if settings.rpcServerUri.isSome && settings.rpcServerAuth.isSome
       then WalletState.READY else WalletState.EMPTY) := by
  rcases settings with ⟨auth, uri⟩
  cases auth <;> cases uri <;> rfl

/-- C5 counterexample: the claim says `reset()` clears the locked flag;
but `reset` on a locked `READY` wallet succeeds with `IS_LOCKED` still
`true`. -/
theorem C5_counterexample_reset_keeps_locked_flag :
    ∃ w1 : Wallet, Wallet.reset lockedReadyWallet = .ok w1 ∧ w1.IS_LOCKED = true :=
  ⟨_, rfl, rfl⟩

/-- C5 (amended): on a `READY` wallet `reset()` succeeds, clears the
master node address, the mnemonic, the HD address list, the random
address list and the transactions, and sets the state to `EMPTY`, while
leaving the locked flag (and the RPC binding) unchanged; on an `EMPTY`
wallet it fails with the state error and changes nothing. -/
theorem C5_reset_amended (w : Wallet) :
    (w.STATE = WalletState.READY →
        w.reset = .ok { w with
          MASTER_NODE_ADDRESS := none
          MNEMONIC := none
          ADDRESSES := []
          RANDOM_ADDRESSES := []
          STATE := WalletState.EMPTY
          TRANSACTIONS := [] }) ∧
    (w.STATE = WalletState.EMPTY → w.reset = .error WErr.resetAlreadyEmpty) := by
  constructor
  · intro h
    simp [Wallet.reset, h]
  · intro h
    simp [Wallet.reset, h]

/-- C5 witness: the amended reset behaviour evaluated on the concrete
locked `READY` wallet. -/
theorem C5_reset_amended_witness :
    Wallet.reset lockedReadyWallet = .ok { lockedReadyWallet with
      MASTER_NODE_ADDRESS := none
      MNEMONIC := none
      ADDRESSES := []
      RANDOM_ADDRESSES := []
      STATE := WalletState.EMPTY
      TRANSACTIONS := [] } :=
  (C5_reset_amended lockedReadyWallet).1 rfl

/-- C6: on a `READY` wallet, `export` succeeds exactly in the two
combinations (locked, not forced) and (unlocked, forced), returning the
snapshot made of the HD address count, the optional master node address
and the full random address list; the two other combinations fail with
the corresponding invariant violations. -/
theorem C6_export_guard_matrix (w : Wallet) (unsafeMode : Bool)
    (h : w.STATE = WalletState.READY) :
    ((w.IS_LOCKED = true ∧ unsafeMode = false) ∨
        (w.IS_LOCKED = false ∧ unsafeMode = true) →
      w.exportData unsafeMode =
        .ok { chainsCount := w.ADDRESSES.length
              masterNodeAddress := w.MASTER_NODE_ADDRESS
              randomAddresses := w.RANDOM_ADDRESSES }) ∧
    (w.IS_LOCKED = false ∧ unsafeMode = false →
      w.exportData unsafeMode = .error WErr.exportUnlockedNotForced) ∧
    (w.IS_LOCKED = true ∧ unsafeMode = true →
      w.exportData unsafeMode = .error WErr.exportLockedForced) := by
  cases hL : w.IS_LOCKED <;> cases unsafeMode <;>
    simp [Wallet.exportData, h, hL]

/-- C6 witness: exporting the concrete locked wallet without forcing
succeeds with the expected snapshot. -/
theorem C6_export_guard_matrix_witness :
    Wallet.exportData lockedReadyWallet false =
      .ok { chainsCount := 0
            masterNodeAddress := none
            randomAddresses := [addr1] } :=
  (C6_export_guard_matrix lockedReadyWallet false rfl).1 (Or.inl ⟨rfl, rfl⟩)

/-- C7: on a non-`EMPTY` wallet, `getBalance(addressHash)` with a hash
foreign to `allAddresses` fails with the membership error — for every
collaborator record, hence without depending on (or performing) any
balance query — and with a hash of some held address it returns exactly
the balance service's result for that single hash (a collaborator failure
being propagated wrapped as `WErr.collab`). -/
theorem C7_getBalance_membership (c : Collab) (w : Wallet) (h : String)
    (hs : w.STATE ≠ WalletState.EMPTY) :
    ((∀ a ∈ w.ADDRESSES ++ w.RANDOM_ADDRESSES, a.hash ≠ h) →
        w.getBalance c (some h) = .error WErr.getBalanceUnknownAddress) ∧
    ((∃ a ∈ w.ADDRESSES ++ w.RANDOM_ADDRESSES, a.hash = h) →
        w.getBalance c (some h) = (c.getBalanceFor h).mapError WErr.collab) := by
  have hR : w.STATE = WalletState.READY := by
    cases hst : w.STATE
    · exact absurd hst hs
    · rfl
  constructor
  · intro hnone
    have hfilter : (w.ADDRESSES ++ w.RANDOM_ADDRESSES).filter (fun a => a.hash == h) = [] := by
      rw [List.filter_eq_nil_iff]
      intro a ha
      simpa using hnone a ha
    simp [Wallet.getBalance, Wallet.allAddressesGet, hR, hfilter]
  · intro hsome
    obtain ⟨a, ha, hah⟩ := hsome
    have hne : (w.ADDRESSES ++ w.RANDOM_ADDRESSES).filter (fun x => x.hash == h) ≠ [] := by
      intro hnil
      have := List.filter_eq_nil_iff.mp hnil a ha
      simp [hah] at this
    have hlen : ¬((w.ADDRESSES ++ w.RANDOM_ADDRESSES).filter (fun x => x.hash == h)).length = 0 := by
      simpa [List.length_eq_zero] using hne
    cases hq : c.getBalanceFor h <;>
      simp [Wallet.getBalance, Wallet.allAddressesGet, hR, hlen, hq, Except.mapError] <;>
      · intro hA
        rcases List.mem_append.mp ha with h1 | h2
        · exact absurd hah (hA a h1)
        · exact ⟨a, h2, hah⟩

/-- C7 witness: on the concrete wallet, the held hash `"h1"` is answered
by the balance service (balance 2) and the foreign hash `"zz"` fails with
the membership error. -/
theorem C7_getBalance_membership_witness :
    Wallet.getBalance testCollab readyWallet (some "h1") = .ok 2 ∧
    Wallet.getBalance testCollab readyWallet (some "zz") =
      .error WErr.getBalanceUnknownAddress :=
  ⟨(C7_getBalance_membership testCollab readyWallet "h1" (by decide)).2
      ⟨addr1, by decide, rfl⟩,
   (C7_getBalance_membership testCollab readyWallet "zz" (by decide)).1 (by decide)⟩

/-- The accumulation loop on a list whose every balance query succeeds
returns the accumulator plus the sum of the per-address balances. -/
theorem getBalanceLoop_all_ok (c : Collab) (f : WalletAddress → Int) :
    ∀ (l : List WalletAddress) (acc : Int),
      (∀ a ∈ l, c.getBalanceFor a.hash = .ok (f a)) →
      getBalanceLoop c acc l = .ok (acc + (l.map f).sum)
  | [], acc, _ => by simp [getBalanceLoop]
  | a :: rest, acc, hall => by
      have ha := hall a (List.mem_cons_self a rest)
      have hrest := getBalanceLoop_all_ok c f rest (acc + f a)
        (fun x hx => hall x (List.mem_cons_of_mem a hx))
      simp [getBalanceLoop, ha, hrest, add_assoc]

/-- If every balance query either succeeds or fails with the error `e`,
and at least one fails, the accumulation loop surfaces `e` (wrapped). -/
theorem getBalanceLoop_first_error (c : Collab) (f : WalletAddress → Int) (e : String) :
    ∀ (l : List WalletAddress) (acc : Int),
      (∀ a ∈ l, c.getBalanceFor a.hash = .ok (f a) ∨ c.getBalanceFor a.hash = .error e) →
      (∃ a ∈ l, c.getBalanceFor a.hash = .error e) →
      getBalanceLoop c acc l = .error (WErr.collab e)
  | [], _, _, hex => by simp at hex
  | a :: rest, acc, hall, hex => by
      rcases hall a (List.mem_cons_self a rest) with hok | herr
      · have hex' : ∃ x ∈ rest, c.getBalanceFor x.hash = .error e := by
          rcases hex with ⟨x, hx, hxe⟩
          rcases List.mem_cons.mp hx with hEq | hx'
          · subst hEq; rw [hok] at hxe; exact Except.noConfusion hxe
          · exact ⟨x, hx', hxe⟩
        have hrest := getBalanceLoop_first_error c f e rest (acc + f a)
          (fun x hx => hall x (List.mem_cons_of_mem a hx)) hex'
        simp [getBalanceLoop, hok, hrest]
      · simp [getBalanceLoop, herr]

/-- C8: on a non-`EMPTY` wallet, when every per-address balance query
succeeds, `getBalance()` returns the sum of the per-address balances over
`allAddresses`; the result is independent of iteration order (any
permutation of the address list yields the same sum); and when some
per-address query fails with an error `e` (all failures carrying `e`),
the whole call fails with that error and no partial total is returned. -/
theorem C8_getBalance_total (c : Collab) (w : Wallet) (f : WalletAddress → Int)
    (hs : w.STATE ≠ WalletState.EMPTY) :
    ((∀ a ∈ w.ADDRESSES ++ w.RANDOM_ADDRESSES, c.getBalanceFor a.hash = .ok (f a)) →
        w.getBalance c none = .ok (((w.ADDRESSES ++ w.RANDOM_ADDRESSES).map f).sum) ∧
        ∀ l : List WalletAddress, l.Perm (w.ADDRESSES ++ w.RANDOM_ADDRESSES) →
          w.getBalance c none = .ok ((l.map f).sum)) ∧
    (∀ e : String,
        (∀ a ∈ w.ADDRESSES ++ w.RANDOM_ADDRESSES,
            c.getBalanceFor a.hash = .ok (f a) ∨ c.getBalanceFor a.hash = .error e) →
        (∃ a ∈ w.ADDRESSES ++ w.RANDOM_ADDRESSES, c.getBalanceFor a.hash = .error e) →
        w.getBalance c none = .error (WErr.collab e)) := by
  have hR : w.STATE = WalletState.READY := by
    cases hst : w.STATE
    · exact absurd hst hs
    · rfl
  have hget : w.getBalance c none =
      getBalanceLoop c 0 (w.ADDRESSES ++ w.RANDOM_ADDRESSES).reverse := by
    simp [Wallet.getBalance, Wallet.allAddressesGet, hR]
  constructor
  · intro hall
    have hall' : ∀ a ∈ (w.ADDRESSES ++ w.RANDOM_ADDRESSES).reverse,
        c.getBalanceFor a.hash = .ok (f a) :=
      fun a ha => hall a (List.mem_reverse.mp ha)
    have hr := getBalanceLoop_all_ok c f _ 0 hall'
    constructor
    · rw [hget, hr]
      simp [List.map_reverse, List.sum_reverse]
      ring
    · intro l hperm
      rw [hget, hr]
      have hsum : (l.map f).sum = ((w.ADDRESSES ++ w.RANDOM_ADDRESSES).map f).sum :=
        (hperm.map f).sum_eq
      simp [hsum, List.map_reverse, List.sum_reverse]
      ring
  · intro e hall hex
    have hall' : ∀ a ∈ (w.ADDRESSES ++ w.RANDOM_ADDRESSES).reverse,
        c.getBalanceFor a.hash = .ok (f a) ∨ c.getBalanceFor a.hash = .error e :=
      fun a ha => hall a (List.mem_reverse.mp ha)
    have hex' : ∃ a ∈ (w.ADDRESSES ++ w.RANDOM_ADDRESSES).reverse,
        c.getBalanceFor a.hash = .error e := by
      rcases hex with ⟨a, ha, he⟩
      exact ⟨a, List.mem_reverse.mpr ha, he⟩
    rw [hget]
    exact getBalanceLoop_first_error c f e _ 0 hall' hex'

/-- The per-address balance used by the C8 witness: the hash length. -/
def balF (a : WalletAddress) : Int := (a.hash.length : Int)

/-- C8 witness: the aggregate balance of the concrete wallet (one address
with hash `"h1"`, balance 2). -/
theorem C8_getBalance_total_witness :
    Wallet.getBalance testCollab readyWallet none = .ok 2 :=
  ((C8_getBalance_total testCollab readyWallet balF (by decide)).1 (by decide)).1

/-- The fail-fast map returns the pointwise results when every step
succeeds. -/
theorem mapExcept_all_ok {α β : Type} (F : α → Except WErr β) (g : α → β) :
    ∀ l : List α, (∀ x ∈ l, F x = .ok (g x)) → mapExcept F l = .ok (l.map g)
  | [], _ => rfl
  | x :: rest, hall => by
      have hx := hall x (List.mem_cons_self x rest)
      have hrest := mapExcept_all_ok F g rest
        (fun y hy => hall y (List.mem_cons_of_mem x hy))
      simp [mapExcept, hx, hrest]

/-- C9: on an `EMPTY` wallet, with a valid mnemonic, a succeeding master
node derivation and succeeding chain derivations, `generate` stores the
master node address with `label = null`, appends exactly `chainsCount`
derived chain addresses for the indices `0 .. chainsCount - 1` (in
increasing index order, under the fixed `WALLET_INDEX`), and ends with
state `READY`; on a `READY` wallet `generate` fails with the state
error. -/
theorem C9_generate_chains (c : Collab) (w : Wallet) (m : String) (ext : Option String)
    (chainsCount : Nat) (mna : Address) (g : Nat → Address)
    (_hcount : 1 ≤ chainsCount)
    (hv : c.validateMnemonic m = true)
    (hm : c.getMasterNodeAddressFromMnemonic m ext = .ok mna)
    (hd : ∀ i < chainsCount,
        c.getDerivedChainFromMasterNodePrivateKey mna.privateKey WALLET_INDEX i = .ok (g i)) :
    (w.STATE = WalletState.EMPTY →
        w.generate c (some m) ext chainsCount =
          .ok { w with
                MASTER_NODE_ADDRESS := some { toAddress := mna, label := none }
                ADDRESSES := w.ADDRESSES ++
                  (List.range chainsCount).map
                    (fun i => ({ toAddress := g i, label := none } : WalletAddress))
                STATE := WalletState.READY }) ∧
    (w.STATE = WalletState.READY →
        w.generate c (some m) ext chainsCount = .error WErr.generateAlreadyReady) := by
  constructor
  · intro hE
    have hmap := mapExcept_all_ok
      (fun chainIndex =>
        (match c.getDerivedChainFromMasterNodePrivateKey mna.privateKey
            WALLET_INDEX chainIndex with
         | .error e => .error (WErr.collab e)
         | .ok a => .ok ({ toAddress := a, label := none } : WalletAddress)))
      (fun i => ({ toAddress := g i, label := none } : WalletAddress))
      (List.range chainsCount)
      (by
        intro i hi
        have hdi := hd i (List.mem_range.mp hi)
        simp [hdi])
    simp [Wallet.generate, hE, hv, hm, hmap]
  · intro hRdy
    simp [Wallet.generate, hRdy]

/-- The master node address derived by `testCollab` from `"words"`. -/
def mna9 : Address :=
  { hash := "MH", isCiphered := false, isHD := true, privateKey := "MKwords" }

/-- The chain addresses derived by `testCollab` from `mna9`. -/
def g9 (i : Nat) : Address :=
  { hash := "DH" ++ toString i, isCiphered := false, isHD := false,
    privateKey := "MKwords" ++ toString i }

/-- C9 witness: generating the concrete empty wallet with mnemonic
`"words"` and two chains. -/
theorem C9_generate_chains_witness :
    Wallet.generate testCollab emptyWallet (some "words") none 2 =
      .ok { emptyWallet with
            MASTER_NODE_ADDRESS := some { toAddress := mna9, label := none }
            ADDRESSES := (List.range 2).map
              (fun i => ({ toAddress := g9 i, label := none } : WalletAddress))
            STATE := WalletState.READY } :=
  (C9_generate_chains testCollab emptyWallet "words" none 2 mna9 g9
      (by decide) rfl rfl (by decide)).1 rfl

/-- C10: the inner duplicate-master-node guard of `importRandomAddress`
(the `state == READY && isHD` branch inside the `isHDMasterNode` path) is
unreachable: no call ever fails with its error, because the entry guard
already rejects every `isHDMasterNode = true` call on a wallet holding a
master node (second conjunct), so at the inner guard `MASTER_NODE_ADDRESS`
is always `undefined` and `isHD` is false. -/
theorem C10_inner_duplicate_guard_unreachable (c : Collab) (w : Wallet)
    (address : WalletAddress) (passphrase : Option String) (isHDMasterNode : Bool) :
    Wallet.importRandomAddress c w address passphrase isHDMasterNode ≠
        .error WErr.importInnerDuplicateMasterNode ∧
    (isHDMasterNode = true → w.MASTER_NODE_ADDRESS.isSome = true →
        Wallet.importRandomAddress c w address passphrase isHDMasterNode =
          .error WErr.importDuplicateMasterNode) := by
  constructor
  · intro hcontra
    unfold Wallet.importRandomAddress at hcontra
    by_cases hguard : (isHDMasterNode && w.MASTER_NODE_ADDRESS.isSome) = true
    · rw [if_pos hguard] at hcontra
      simp at hcontra
    · rw [if_neg hguard] at hcontra
      split at hcontra
      · rename_i e he
        -- the decipher step only yields the missing-passphrase error or a
        -- wrapped collaborator error, never the inner guard's error
        have : e ≠ WErr.importInnerDuplicateMasterNode := by
          revert he
          split
          · split
            · intro he
              cases he
              simp at hcontra
            · split
              · intro he
                cases he
                simp at hcontra
              · intro he
                exact Except.noConfusion he
          · intro he
            exact Except.noConfusion he
        simp [this] at hcontra
      · rename_i address2 he2
        split at hcontra
        · simp at hcontra
        · rename_i h hh
          split at hcontra
          · -- isHDMasterNode = true branch: the inner guard
            rename_i hHD
            split at hcontra
            · -- inner condition true: contradicts the failed entry guard
              rename_i hinner
              rw [hHD] at hguard
              simp at hguard
              simp [hguard] at hinner
            · simp at hcontra
          · simp at hcontra
  · intro h1 h2
    unfold Wallet.importRandomAddress
    rw [if_pos (by rw [h1, h2]; rfl)]

/-- A wallet already holding a master node address. -/
def mnWallet : Wallet :=
  { readyWallet with MASTER_NODE_ADDRESS := some addr1 }

/-- C10 witness: importing a master node into a wallet that has one fails
at the entry guard, and the inner guard's error is never surfaced. -/
theorem C10_inner_duplicate_guard_unreachable_witness :
    Wallet.importRandomAddress testCollab mnWallet addr1 none true =
        .error WErr.importDuplicateMasterNode ∧
    Wallet.importRandomAddress testCollab mnWallet addr1 none true ≠
        .error WErr.importInnerDuplicateMasterNode :=
  ⟨(C10_inner_duplicate_guard_unreachable testCollab mnWallet addr1 none true).2 rfl rfl,
   (C10_inner_duplicate_guard_unreachable testCollab mnWallet addr1 none true).1⟩

end ElectraJs
